import Mathlib

/-!
Verification of the invoice computation and identifier module of the
`invoice.boidu.dev` service (an edge-hosted invoicing API).

The development shallowly embeds the TypeScript source:

* `src/src/types.ts` — the data model (`InvoiceItem`, `CreateInvoiceRequest`,
  `InvoiceMetadata`, `InvoiceStorageData`);
* `src/src/templates/invoice-template.ts` — `calculateItemTotal`,
  `calculateTotal`;
* `src/src/utils/storage.ts` — `InvoiceStorage.generateInvoiceId`,
  `InvoiceStorage.saveInvoice`, `InvoiceStorage.updateInvoiceStatus`,
  `InvoiceStorage.getInvoiceData`, `InvoiceStorage.getInvoiceMetadata`,
  with the Cloudflare KV namespace modelled as a string-keyed partial map;
* the zod validator `invoiceItemSchema` and the PDF generator's totals box.

JavaScript numbers are modelled by `ℚ` (exact arithmetic); `Math.round` is
modelled by `jsRound` (floor of `x + 1/2`, which is JavaScript's
round-half-toward-positive-infinity semantics on finite values).  JavaScript
string primitives (`substring`, `toUpperCase`, `replace(/[^A-Z]/g, '')`,
`padStart`, `Number.prototype.toString`) are modelled character-wise on
`List Char`.

The file is organised as: all definitions first, then all lemmas and the
claim theorems with their witnesses.
-/

namespace Invoice

/-! ### Data model, from `src/src/types.ts` -/

/-- Structure `Contact` from `types.ts`: name, address, email, optional
phone. -/
structure Contact where
  name : String
  address : String
  email : String
  phone : Option String
deriving DecidableEq, Repr

/-- Structure `InvoiceItem` from `types.ts`: description, qty, unit, tax. -/
structure InvoiceItem where
  description : String
  qty : ℚ
  unit : ℚ
  tax : ℚ
deriving DecidableEq, Repr

/-- Structure `CreateInvoiceRequest` from `types.ts` (the `status` field is
read by `storage.ts` via `request.status || 'due'`, so it is part of the
record even though the `types.ts` interface omits it; optional fields are
`Option`). -/
structure CreateInvoiceRequest where
  seller : Contact
  buyer : Contact
  items : List InvoiceItem
  currency : String
  issueDate : String
  dueDate : String
  taxRate : Option ℚ
  discountRate : Option ℚ
  status : Option String
  notes : Option String
deriving DecidableEq, Repr

/-- Structure `InvoiceMetadata` as constructed by
`InvoiceStorage.saveInvoice` in `storage.ts`. -/
structure InvoiceMetadata where
  id : String
  userId : String
  folderId : String
  number : Nat
  buyer : String
  seller : String
  total : ℚ
  currency : String
  issueDate : String
  dueDate : String
  status : String
  createdAt : String
deriving DecidableEq, Repr

/-- Structure `InvoiceStorageData` from `types.ts`: the full record stored
under `invoice:{id}` — metadata plus the original request. -/
structure InvoiceStorageData where
  metadata : InvoiceMetadata
  request : CreateInvoiceRequest
deriving DecidableEq, Repr

/-! ### JavaScript primitives used by the source, modelled on `List Char` -/

/-- Model of `s.substring(0, n)` for an in-range start of 0. -/
def jsSubstringTo (s : String) (n : Nat) : String :=
  String.mk (s.data.take n)

/-- Model of `s.toUpperCase()` (simple character-wise ASCII case
mapping). -/
def jsToUpperCase (s : String) : String :=
  String.mk (s.data.map Char.toUpper)

/-- Model of `s.replace(/[^A-Z]/g, '')` — keep only uppercase ASCII
letters. -/
def jsStripNonUpperAZ (s : String) : String :=
  String.mk (s.data.filter (fun c => 'A' ≤ c && c ≤ 'Z'))

/-- Model of `s.padStart(n, c)`: left-pad `s` with `c` up to length `n`
(no-op when `s` is already at least that long). -/
def jsPadStart (s : String) (n : Nat) (c : Char) : String :=
  String.mk (List.replicate (n - s.length) c) ++ s

/-- Decimal digit character for `n % 10`. -/
def decDigit (n : Nat) : Char := Char.ofNat (48 + n % 10)

/-- Fuel-driven most-significant-first decimal digit list of `n`. -/
def decimalDigits : Nat → Nat → List Char
  | 0, _ => []
  | fuel + 1, n =>
    if n < 10 then [decDigit n]
    else decimalDigits fuel (n / 10) ++ [decDigit (n % 10)]

/-- Model of `n.toString()` for a nonnegative integer `n` (base-10, no
sign, no padding), as produced by JavaScript's
`Number.prototype.toString`. -/
def natToString (n : Nat) : String :=
  String.mk (decimalDigits (n + 1) n)

/-- Model of `x ?? d` (nullish coalescing) for an optional number. -/
def jsNullish (x : Option ℚ) (d : ℚ) : ℚ := x.getD d

/-- Model of `s || d` for an optional string: `undefined` and the empty
string are falsy and yield the default. -/
def jsOrDefault (s : Option String) (d : String) : String :=
  match s with
  | none => d
  | some v => if v = "" then d else v

/-- Model of `Math.round x` on a finite value: `⌊x + 1/2⌋`
(half-way cases round toward positive infinity), computed on `ℚ` via
flooring integer division so that it evaluates by `rfl`/`decide`. -/
def jsRound (q : ℚ) : ℤ :=
  Int.fdiv (q + 1/2).num (q + 1/2).den

/-- Model of `Math.round(q * 100) / 100`: round to 2 decimal places at the
cent boundary, exactly as `storage.ts` does for the persisted total. -/
def round2 (q : ℚ) : ℚ :=
  (jsRound (q * 100) : ℚ) / 100

/-! ### Functions from `src/src/templates/invoice-template.ts` -/

/-- Function `calculateItemTotal` from `invoice-template.ts`:
subtotal `qty * unit` plus line-level tax on that subtotal. -/
def calculateItemTotal (item : InvoiceItem) : ℚ :=
  let subtotal := item.qty * item.unit
  let taxAmount := subtotal * (item.tax / 100)
  subtotal + taxAmount

/-- Function `calculateTotal` from `invoice-template.ts`:
`items.reduce((sum, item) => sum + calculateItemTotal(item), 0)`. -/
def calculateTotal (items : List InvoiceItem) : ℚ :=
  items.foldl (fun sum item => sum + calculateItemTotal item) 0

/-! ### `InvoiceStorage` from `src/src/utils/storage.ts`

The Cloudflare `KVNamespace` is modelled as a string-keyed partial map.  The
source serialises records with `JSON.stringify` and re-reads them with
`JSON.parse`; since the stored objects round-trip through JSON unchanged,
the map holds the structured values directly. -/

/-- Values stored in the KV namespace: a full invoice record
(`invoice:{id}`), a metadata record (`invoice:meta:{id}`), or the `'1'`
marker used for the user/folder index keys. -/
inductive KVValue where
  | data (d : InvoiceStorageData)
  | meta (m : InvoiceMetadata)
  | mark
deriving DecidableEq

/-- The KV namespace: a partial map from keys to stored values. -/
def KV : Type := String → Option KVValue

/-- Model of `kv.put(key, v)`. -/
def kvPut (kv : KV) (key : String) (v : KVValue) : KV :=
  fun k => if k = key then some v else kv k

/-- An empty KV namespace. -/
def emptyKV : KV := fun _ => none

/-- Method `InvoiceStorage.getInvoiceData`: read the full record under
`invoice:{id}`. -/
def getInvoiceData (kv : KV) (id : String) : Option InvoiceStorageData :=
  match kv ("invoice:" ++ id) with
  | some (KVValue.data d) => some d
  | _ => none

/-- Method `InvoiceStorage.getInvoiceMetadata`: read the metadata record
under `invoice:meta:{id}`. -/
def getInvoiceMetadata (kv : KV) (id : String) : Option InvoiceMetadata :=
  match kv ("invoice:meta:" ++ id) with
  | some (KVValue.meta m) => some m
  | _ => none

/-- Method `InvoiceStorage.generateInvoiceId` from `storage.ts`:
`INV-` + first 3 chars of `userId` upper-cased + `-` + first 4 chars of
`folderCompany` upper-cased with non-`A`–`Z` characters stripped + `-` +
`invoiceNumber.toString().padStart(4, '0')`. -/
def generateInvoiceId (userId folderCompany : String) (invoiceNumber : Nat) : String :=
  let userPref := jsToUpperCase (jsSubstringTo userId 3)
  let companyPref := jsStripNonUpperAZ (jsToUpperCase (jsSubstringTo folderCompany 4))
  "INV-" ++ userPref ++ "-" ++ companyPref ++ "-"
    ++ jsPadStart (natToString invoiceNumber) 4 '0'

/-- The `request.items.reduce(...)` total inside
`InvoiceStorage.saveInvoice`: running sum plus `qty * unit` plus
`(qty * unit) * (tax / 100)` per item, starting from `0`. -/
def storageItemsTotal (items : List InvoiceItem) : ℚ :=
  items.foldl (fun sum item =>
    let subtotal := item.qty * item.unit
    let taxAmount := subtotal * (item.tax / 100)
    sum + subtotal + taxAmount) 0

/-- Method `InvoiceStorage.saveInvoice` from `storage.ts`.  `now` stands
for `new Date().toISOString()`.  Returns the metadata and the updated
store. -/
def saveInvoice (kv : KV) (userId folderId : String)
    (request : CreateInvoiceRequest) (invoiceNumber : Nat)
    (folderCompany : String) (now : String) : InvoiceMetadata × KV :=
  let invoiceId := generateInvoiceId userId folderCompany invoiceNumber
  let total := storageItemsTotal request.items
  let metadata : InvoiceMetadata :=
    { id := invoiceId
      userId := userId
      folderId := folderId
      number := invoiceNumber
      buyer := request.buyer.name
      seller := request.seller.name
      total := round2 total
      currency := request.currency
      issueDate := request.issueDate
      dueDate := request.dueDate
      status := jsOrDefault request.status "due"
      createdAt := now }
  let storageData : InvoiceStorageData := { metadata := metadata, request := request }
  let kv1 := kvPut kv ("invoice:" ++ invoiceId) (KVValue.data storageData)
  let kv2 := kvPut kv1 ("invoice:meta:" ++ invoiceId) (KVValue.meta metadata)
  let kv3 := kvPut kv2 ("invoice:user:" ++ userId ++ ":" ++ invoiceId) KVValue.mark
  let kv4 := kvPut kv3 ("invoice:folder:" ++ folderId ++ ":" ++ invoiceId) KVValue.mark
  (metadata, kv4)

/-- Method `InvoiceStorage.updateInvoiceStatus` from `storage.ts`: look up
the full record; on a miss return `null` leaving the store untouched;
otherwise write back both the full record and the metadata copy with only
`status` replaced. -/
def updateInvoiceStatus (kv : KV) (invoiceId : String) (status : String) :
    Option InvoiceMetadata × KV :=
  match getInvoiceData kv invoiceId with
  | none => (none, kv)
  | some d =>
    let updatedMetadata := { d.metadata with status := status }
    let updatedStorageData := { d with metadata := updatedMetadata }
    (some updatedMetadata,
      kvPut (kvPut kv ("invoice:" ++ invoiceId) (KVValue.data updatedStorageData))
        ("invoice:meta:" ++ invoiceId) (KVValue.meta updatedMetadata))

/-- Application of a sequence of status updates to the same invoice id. -/
def applyStatusUpdates (kv : KV) (invoiceId : String) (statuses : List String) : KV :=
  statuses.foldl (fun s st => (updateInvoiceStatus s invoiceId st).2) kv

/-! ### Validation (`invoiceItemSchema` in the zod validators) -/

/-- Predicate for `invoiceItemSchema`: description non-empty, `qty`
positive, `unit` positive, `tax` between 0 and 100. -/
def validItem (item : InvoiceItem) : Prop :=
  item.description ≠ "" ∧ 0 < item.qty ∧ 0 < item.unit ∧ 0 ≤ item.tax ∧ item.tax ≤ 100

instance (item : InvoiceItem) : Decidable (validItem item) := by
  unfold validItem
  infer_instance

/-! ### The PDF totals box (`InvoicePDFGenerator.generateInvoicePDF`) -/

/-- The running `totalAmount` accumulated over the items while drawing the
table in `generateInvoicePDF`. -/
def pdfTotalAmount (items : List InvoiceItem) : ℚ :=
  items.foldl (fun totalAmount item =>
    let subtotal := item.qty * item.unit
    let taxAmount := subtotal * (item.tax / 100)
    let itemTotal := subtotal + taxAmount
    totalAmount + itemTotal) 0

/-- The invoice-level tax/discount aggregation computed in the totals box
of `generateInvoicePDF`, as a function of the subtotal and the two rates:
`(taxAmount, discountAmount, finalTotal)`. -/
def invoiceTotals (subtotal taxRate discountRate : ℚ) : ℚ × ℚ × ℚ :=
  let taxAmount := subtotal * (taxRate / 100)
  let discountAmount := subtotal * (discountRate / 100)
  (taxAmount, discountAmount, subtotal + taxAmount - discountAmount)

/-- The four displayed amounts of the totals box. -/
structure PdfTotals where
  subtotal : ℚ
  taxAmount : ℚ
  discountAmount : ℚ
  finalTotal : ℚ
deriving DecidableEq, Repr

/-- The totals box of `generateInvoicePDF`: subtotal is the accumulated
`totalAmount`, the rates come from `request.taxRate ?? 0` and
`request.discountRate ?? 0`. -/
def pdfTotals (request : CreateInvoiceRequest) : PdfTotals :=
  let subtotal := pdfTotalAmount request.items
  let taxRate := jsNullish request.taxRate 0
  let discountRate := jsNullish request.discountRate 0
  let taxAmount := subtotal * (taxRate / 100)
  let discountAmount := subtotal * (discountRate / 100)
  { subtotal := subtotal
    taxAmount := taxAmount
    discountAmount := discountAmount
    finalTotal := subtotal + taxAmount - discountAmount }

/-- Rounding to 2 decimal places at the cent boundary via
round-half-away-from-zero, following the spec's words: scale by 100, round
half away from zero to an integer, scale back. -/
def roundHalfAwayFromZero2 (q : ℚ) : ℚ :=
  if 0 ≤ q then ((⌊q * 100 + 1/2⌋ : ℤ) : ℚ) / 100
  else -(((⌊-(q * 100) + 1/2⌋ : ℤ) : ℚ) / 100)

/-! ### Concrete sample store used by the state-machine witnesses -/

/-- A sample line item (2 × 50 with 10% line tax). -/
def sampleItem : InvoiceItem := ⟨"Consulting", 2, 50, 10⟩

/-- A sample validated request. -/
def sampleRequest : CreateInvoiceRequest :=
  { seller := ⟨"Seller Corp", "123 Seller St", "billing@seller.com", none⟩
    buyer := ⟨"Buyer Inc", "456 Buyer Ave", "ap@buyer.com", none⟩
    items := [sampleItem]
    currency := "USD"
    issueDate := "2025-01-01"
    dueDate := "2025-01-31"
    taxRate := none
    discountRate := none
    status := none
    notes := none }

/-- Metadata consistent with `sampleRequest` (2 × 50 plus 10% tax = 110). -/
def sampleMetadata : InvoiceMetadata :=
  { id := "ID1", userId := "u", folderId := "f", number := 1
    buyer := "Buyer Inc", seller := "Seller Corp", total := 110
    currency := "USD", issueDate := "2025-01-01", dueDate := "2025-01-31"
    status := "due", createdAt := "2025-01-01T00:00:00.000Z" }

/-- The sample full record. -/
def sampleData : InvoiceStorageData :=
  { metadata := sampleMetadata, request := sampleRequest }

/-- A store holding the sample record under `invoice:ID1`. -/
def sampleKV : KV := kvPut emptyKV "invoice:ID1" (KVValue.data sampleData)

/-! ### Helper lemmas on folds -/

lemma foldl_add_eq_sum (f : InvoiceItem → ℚ) (l : List InvoiceItem) (a : ℚ) :
    l.foldl (fun sum item => sum + f item) a = a + (l.map f).sum := by
  induction l generalizing a with
  | nil => simp
  | cons x xs ih => simp [ih, add_assoc]

lemma calculateTotal_eq_sum (items : List InvoiceItem) :
    calculateTotal items = (items.map calculateItemTotal).sum := by
  unfold calculateTotal
  rw [foldl_add_eq_sum, zero_add]

/-! ### Decimal representation lemmas for `natToString` -/

lemma mk_append (l m : List Char) : String.mk l ++ String.mk m = String.mk (l ++ m) := rfl

lemma length_mk (l : List Char) : (String.mk l).length = l.length := rfl

lemma decimalDigits_stable :
    ∀ f g n : Nat, 0 < f → 0 < g → n < 10 ^ f → n < 10 ^ g →
      decimalDigits f n = decimalDigits g n := by
  intro f
  induction f with
  | zero => intro g n hf _ _ _; omega
  | succ f ih =>
    intro g n _ hg hnf hng
    obtain ⟨g', rfl⟩ : ∃ g', g = g' + 1 := ⟨g - 1, by omega⟩
    by_cases h10 : n < 10
    · simp [decimalDigits, h10]
    · have hf' : 0 < f := by
        rcases Nat.eq_zero_or_pos f with h | h
        · subst h; rw [pow_one] at hnf; omega
        · exact h
      have hg' : 0 < g' := by
        rcases Nat.eq_zero_or_pos g' with h | h
        · subst h; rw [pow_one] at hng; omega
        · exact h
      have hdivf : n / 10 < 10 ^ f := by
        rw [Nat.div_lt_iff_lt_mul (by norm_num)]
        calc n < 10 ^ (f + 1) := hnf
          _ = 10 ^ f * 10 := by rw [pow_succ]
      have hdivg : n / 10 < 10 ^ g' := by
        rw [Nat.div_lt_iff_lt_mul (by norm_num)]
        calc n < 10 ^ (g' + 1) := hng
          _ = 10 ^ g' * 10 := by rw [pow_succ]
      simp only [decimalDigits, if_neg h10]
      rw [ih g' (n / 10) hf' hg' hdivf hdivg]

lemma decimalDigits_length_le :
    ∀ f n : Nat, n < 10 ^ f → (decimalDigits f n).length ≤ f := by
  intro f
  induction f with
  | zero => intro n _; simp [decimalDigits]
  | succ f ih =>
    intro n hn
    by_cases h10 : n < 10
    · simp [decimalDigits, h10]
    · have hdiv : n / 10 < 10 ^ f := by
        rw [Nat.div_lt_iff_lt_mul (by norm_num)]
        calc n < 10 ^ (f + 1) := hn
          _ = 10 ^ f * 10 := by rw [pow_succ]
      simp only [decimalDigits, if_neg h10, List.length_append, List.length_cons,
        List.length_nil]
      have := ih (n / 10) hdiv
      omega

lemma decimalDigits_length_lt :
    ∀ f n k : Nat, 10 ^ k ≤ n → n < 10 ^ f → k < (decimalDigits f n).length := by
  intro f
  induction f with
  | zero =>
    intro n k hk hn
    have : (1 : Nat) ≤ 10 ^ k := Nat.one_le_pow _ _ (by norm_num)
    omega
  | succ f ih =>
    intro n k hk hn
    by_cases h10 : n < 10
    · have hk0 : k = 0 := by
        rcases Nat.eq_zero_or_pos k with h | h
        · exact h
        · exfalso
          have : (10 : Nat) ^ 1 ≤ 10 ^ k := Nat.pow_le_pow_right (by norm_num) h
          rw [pow_one] at this
          omega
      subst hk0
      simp [decimalDigits, h10]
    · have hdiv : n / 10 < 10 ^ f := by
        rw [Nat.div_lt_iff_lt_mul (by norm_num)]
        calc n < 10 ^ (f + 1) := hn
          _ = 10 ^ f * 10 := by rw [pow_succ]
      simp only [decimalDigits, if_neg h10, List.length_append, List.length_cons,
        List.length_nil]
      rcases Nat.eq_zero_or_pos k with hk0 | hkpos
      · omega
      · obtain ⟨j, rfl⟩ : ∃ j, k = j + 1 := ⟨k - 1, by omega⟩
        have hj : 10 ^ j ≤ n / 10 := by
          rw [Nat.le_div_iff_mul_le (by norm_num)]
          calc 10 ^ j * 10 = 10 ^ (j + 1) := by rw [pow_succ]
            _ ≤ n := hk
        have := ih (n / 10) j hj hdiv
        omega

lemma natToString_eq (e n : Nat) (he : 0 < e) (hn : n < 10 ^ e) :
    natToString n = String.mk (decimalDigits e n) := by
  unfold natToString
  congr 1
  refine decimalDigits_stable (n + 1) e n (by omega) he ?_ hn
  calc n < 10 ^ n := Nat.lt_pow_self (by norm_num) n
    _ ≤ 10 ^ (n + 1) := Nat.pow_le_pow_right (by norm_num) (Nat.le_succ n)

lemma natToString_length_le (e n : Nat) (he : 0 < e) (hn : n < 10 ^ e) :
    (natToString n).length ≤ e := by
  rw [natToString_eq e n he hn, length_mk]
  exact decimalDigits_length_le e n hn

lemma natToString_length_lt (k n : Nat) (h : 10 ^ k ≤ n) :
    k < (natToString n).length := by
  unfold natToString
  rw [length_mk]
  refine decimalDigits_length_lt (n + 1) n k h ?_
  calc n < 10 ^ n := Nat.lt_pow_self (by norm_num) n
    _ ≤ 10 ^ (n + 1) := Nat.pow_le_pow_right (by norm_num) (Nat.le_succ n)

/-! ### Rounding lemmas -/

lemma jsRound_eq_floor (q : ℚ) : jsRound q = ⌊q + 1/2⌋ := by
  unfold jsRound
  rw [Rat.floor_def, Int.fdiv_eq_ediv _ (by positivity)]

lemma round2_eq_roundHalfAwayFromZero2 (q : ℚ) (h : 0 ≤ q) :
    round2 q = roundHalfAwayFromZero2 q := by
  unfold round2 roundHalfAwayFromZero2
  rw [if_pos h, jsRound_eq_floor]

/-! ### The storage fold equals the template fold -/

lemma storageItemsTotal_eq_calculateTotal (items : List InvoiceItem) :
    storageItemsTotal items = calculateTotal items := by
  unfold storageItemsTotal calculateTotal
  suffices h : ∀ a : ℚ,
      items.foldl (fun sum item =>
        let subtotal := item.qty * item.unit
        let taxAmount := subtotal * (item.tax / 100)
        sum + subtotal + taxAmount) a
        = items.foldl (fun sum item => sum + calculateItemTotal item) a from h 0
  induction items with
  | nil => intro a; rfl
  | cons x xs ih =>
    intro a
    simp only [List.foldl_cons]
    rw [ih]
    congr 1
    unfold calculateItemTotal
    ring

lemma calculateTotal_nonneg (items : List InvoiceItem)
    (h : ∀ item ∈ items, validItem item) : 0 ≤ calculateTotal items := by
  rw [calculateTotal_eq_sum]
  refine List.sum_nonneg ?_
  intro x hx
  obtain ⟨item, hmem, rfl⟩ := List.mem_map.mp hx
  obtain ⟨-, hq, hu, ht0, -⟩ := h item hmem
  unfold calculateItemTotal
  have hsub : 0 ≤ item.qty * item.unit := le_of_lt (mul_pos hq hu)
  have htax : 0 ≤ item.qty * item.unit * (item.tax / 100) := by positivity
  linarith

/-! ### Key-disjointness lemmas for the KV model

The keys written by `saveInvoice` and `updateInvoiceStatus` never collide
with the record key `invoice:{id}` or the metadata key `invoice:meta:{id}`
of the same invoice; all five facts needed below follow from a length
count. -/

lemma data_key_ne_meta_key (id : String) :
    ("invoice:" ++ id) ≠ ("invoice:meta:" ++ id) := by
  intro h
  have h' := congrArg String.length h
  simp only [String.length_append] at h'
  have e1 : ("invoice:" : String).length = 8 := rfl
  have e2 : ("invoice:meta:" : String).length = 13 := rfl
  omega

lemma data_key_ne_user_key (uid iid : String) :
    ("invoice:" ++ iid) ≠ ("invoice:user:" ++ uid ++ ":" ++ iid) := by
  intro h
  have h' := congrArg String.length h
  simp only [String.length_append] at h'
  have e1 : ("invoice:" : String).length = 8 := rfl
  have e2 : ("invoice:user:" : String).length = 13 := rfl
  have e3 : (":" : String).length = 1 := rfl
  omega

lemma data_key_ne_folder_key (fid iid : String) :
    ("invoice:" ++ iid) ≠ ("invoice:folder:" ++ fid ++ ":" ++ iid) := by
  intro h
  have h' := congrArg String.length h
  simp only [String.length_append] at h'
  have e1 : ("invoice:" : String).length = 8 := rfl
  have e2 : ("invoice:folder:" : String).length = 15 := rfl
  have e3 : (":" : String).length = 1 := rfl
  omega

lemma meta_key_ne_user_key (uid iid : String) :
    ("invoice:meta:" ++ iid) ≠ ("invoice:user:" ++ uid ++ ":" ++ iid) := by
  intro h
  have h' := congrArg String.length h
  simp only [String.length_append] at h'
  have e1 : ("invoice:meta:" : String).length = 13 := rfl
  have e2 : ("invoice:user:" : String).length = 13 := rfl
  have e3 : (":" : String).length = 1 := rfl
  omega

lemma meta_key_ne_folder_key (fid iid : String) :
    ("invoice:meta:" ++ iid) ≠ ("invoice:folder:" ++ fid ++ ":" ++ iid) := by
  intro h
  have h' := congrArg String.length h
  simp only [String.length_append] at h'
  have e1 : ("invoice:meta:" : String).length = 13 := rfl
  have e2 : ("invoice:folder:" : String).length = 15 := rfl
  have e3 : (":" : String).length = 1 := rfl
  omega

lemma kvPut_same (kv : KV) (key : String) (v : KVValue) :
    kvPut kv key v key = some v := by
  unfold kvPut
  rw [if_pos rfl]

lemma kvPut_other (kv : KV) (key : String) (v : KVValue) (k : String) (h : k ≠ key) :
    kvPut kv key v k = kv k := by
  unfold kvPut
  rw [if_neg h]

/-! ### Lookups after `saveInvoice` and `updateInvoiceStatus` -/

lemma getInvoiceData_after_save (kv : KV) (uid fid : String)
    (req : CreateInvoiceRequest) (n : Nat) (comp now : String) :
    getInvoiceData (saveInvoice kv uid fid req n comp now).2
        (generateInvoiceId uid comp n)
      = some { metadata := (saveInvoice kv uid fid req n comp now).1
               request := req } := by
  unfold saveInvoice
  simp only
  unfold getInvoiceData
  rw [kvPut_other _ _ _ _ (data_key_ne_folder_key _ _),
    kvPut_other _ _ _ _ (data_key_ne_user_key _ _),
    kvPut_other _ _ _ _ (data_key_ne_meta_key _),
    kvPut_same]

lemma getInvoiceMetadata_after_save (kv : KV) (uid fid : String)
    (req : CreateInvoiceRequest) (n : Nat) (comp now : String) :
    getInvoiceMetadata (saveInvoice kv uid fid req n comp now).2
        (generateInvoiceId uid comp n)
      = some (saveInvoice kv uid fid req n comp now).1 := by
  unfold saveInvoice
  simp only
  unfold getInvoiceMetadata
  rw [kvPut_other _ _ _ _ (meta_key_ne_folder_key _ _),
    kvPut_other _ _ _ _ (meta_key_ne_user_key _ _),
    kvPut_same]

lemma updateInvoiceStatus_found (kv : KV) (iid st : String)
    (d : InvoiceStorageData) (h : getInvoiceData kv iid = some d) :
    updateInvoiceStatus kv iid st
      = (some { d.metadata with status := st },
          kvPut (kvPut kv ("invoice:" ++ iid)
              (KVValue.data { d with metadata := { d.metadata with status := st } }))
            ("invoice:meta:" ++ iid) (KVValue.meta { d.metadata with status := st })) := by
  unfold updateInvoiceStatus
  rw [h]

lemma updateInvoiceStatus_found_snd (kv : KV) (iid st : String)
    (d : InvoiceStorageData) (h : getInvoiceData kv iid = some d) :
    (updateInvoiceStatus kv iid st).2
      = kvPut (kvPut kv ("invoice:" ++ iid)
            (KVValue.data { d with metadata := { d.metadata with status := st } }))
          ("invoice:meta:" ++ iid) (KVValue.meta { d.metadata with status := st }) := by
  rw [updateInvoiceStatus_found kv iid st d h]

lemma getInvoiceData_after_update (kv : KV) (iid st : String)
    (d : InvoiceStorageData) (h : getInvoiceData kv iid = some d) :
    getInvoiceData (updateInvoiceStatus kv iid st).2 iid
      = some { d with metadata := { d.metadata with status := st } } := by
  rw [updateInvoiceStatus_found_snd kv iid st d h]
  unfold getInvoiceData
  rw [kvPut_other _ _ _ _ (data_key_ne_meta_key _), kvPut_same]

lemma getInvoiceMetadata_after_update (kv : KV) (iid st : String)
    (d : InvoiceStorageData) (h : getInvoiceData kv iid = some d) :
    getInvoiceMetadata (updateInvoiceStatus kv iid st).2 iid
      = some { d.metadata with status := st } := by
  rw [updateInvoiceStatus_found_snd kv iid st d h]
  unfold getInvoiceMetadata
  rw [kvPut_same]

lemma applyStatusUpdates_found :
    ∀ (statuses : List String) (kv : KV) (iid : String) (d : InvoiceStorageData),
      getInvoiceData kv iid = some d →
      getInvoiceData (applyStatusUpdates kv iid statuses) iid
        = some { d with metadata := { d.metadata with
            status := statuses.foldl (fun _ s => s) d.metadata.status } } := by
  intro statuses
  induction statuses with
  | nil =>
    intro kv iid d h
    simpa [applyStatusUpdates] using h
  | cons st rest ih =>
    intro kv iid d h
    have h1 := getInvoiceData_after_update kv iid st d h
    have h2 := ih ((updateInvoiceStatus kv iid st).2) iid _ h1
    simpa [applyStatusUpdates, List.foldl_cons] using h2

/-! ### Claim theorems and witnesses -/

/-- C1: `generateInvoiceId` produces `INV-{ownerPrefix}-{companyPrefix}-{seq}`
where the owner prefix is the first 3 characters of the owner id upper-cased,
the company prefix is the first 4 raw characters of the company name
upper-cased with every character outside `A`–`Z` removed (stripping applies
only among those first 4 characters), and the sequence is zero-padded to 4
digits, with sequences ≥ 10000 printed in full without padding. -/
theorem c1_generateInvoiceId (ownerId companyName : String) (sequence : Nat)
    (h : 0 < sequence) :
    generateInvoiceId ownerId companyName sequence
        = "INV-" ++ String.mk ((ownerId.data.take 3).map Char.toUpper) ++ "-"
            ++ String.mk (((companyName.data.take 4).map Char.toUpper).filter
                 (fun c => 'A' ≤ c && c ≤ 'Z')) ++ "-"
            ++ (if sequence < 10000 then
                  String.mk (List.replicate (4 - (natToString sequence).length) '0'
                    ++ (natToString sequence).data)
                else natToString sequence)
      ∧ (sequence < 10000 → (jsPadStart (natToString sequence) 4 '0').length = 4)
      ∧ (10000 ≤ sequence → jsPadStart (natToString sequence) 4 '0' = natToString sequence) := by
  have hpad : ∀ s : String, jsPadStart s 4 '0'
      = String.mk (List.replicate (4 - s.length) '0' ++ s.data) := by
    intro s
    unfold jsPadStart
    calc String.mk (List.replicate (4 - s.length) '0') ++ s
        = String.mk (List.replicate (4 - s.length) '0') ++ String.mk s.data := rfl
      _ = String.mk (List.replicate (4 - s.length) '0' ++ s.data) := mk_append _ _
  refine ⟨?_, ?_, ?_⟩
  · by_cases hseq : sequence < 10000
    · rw [if_pos hseq]
      unfold generateInvoiceId
      rw [hpad]
      rfl
    · rw [if_neg hseq]
      unfold generateInvoiceId
      rw [hpad]
      have hlen : 4 ≤ (natToString sequence).length := by
        have := natToString_length_lt 4 sequence (by norm_num; omega)
        omega
      have : 4 - (natToString sequence).length = 0 := by omega
      rw [this, List.replicate_zero, List.nil_append]
      rfl
  · intro hseq
    rw [hpad, length_mk, List.length_append, List.length_replicate]
    have hle : (natToString sequence).length ≤ 4 :=
      natToString_length_le 4 sequence (by norm_num) (by norm_num; omega)
    have : (natToString sequence).data.length = (natToString sequence).length := rfl
    omega
  · intro hseq
    rw [hpad]
    have hlen : 4 ≤ (natToString sequence).length := by
      have := natToString_length_lt 4 sequence (by norm_num; omega)
      omega
    have : 4 - (natToString sequence).length = 0 := by omega
    rw [this, List.replicate_zero, List.nil_append]

/-- Witness for C1: at `ownerId = "user"`, `companyName = "123-ABC-XYZ"`,
`sequence = 1` the hypothesis holds and the derived id is `INV-USE--0001`
(empty company prefix: the first four raw characters `123-` hold no letter). -/
theorem c1_generateInvoiceId_witness :
    0 < 1 ∧ generateInvoiceId "user" "123-ABC-XYZ" 1 = "INV-USE--0001" := by
  refine ⟨by decide, ?_⟩
  rw [(c1_generateInvoiceId "user" "123-ABC-XYZ" 1 (by decide)).1]
  rfl

/-- C2: for every validated request, the `total` field `saveInvoice` stores
in the persisted metadata equals `calculateTotal items` rounded to 2 decimal
places at the cent boundary via round-half-away-from-zero, while the
intermediate accumulation is the exact (unrounded) sum of the line totals. -/
theorem c2_saveInvoice_total (kv : KV) (userId folderId : String)
    (request : CreateInvoiceRequest) (invoiceNumber : Nat)
    (folderCompany now : String)
    (hvalid : ∀ item ∈ request.items, validItem item) :
    (saveInvoice kv userId folderId request invoiceNumber folderCompany now).1.total
        = roundHalfAwayFromZero2 (calculateTotal request.items)
      ∧ storageItemsTotal request.items
        = (request.items.map calculateItemTotal).sum := by
  constructor
  · show round2 (storageItemsTotal request.items)
        = roundHalfAwayFromZero2 (calculateTotal request.items)
    rw [storageItemsTotal_eq_calculateTotal,
      round2_eq_roundHalfAwayFromZero2 _ (calculateTotal_nonneg _ hvalid)]
  · rw [storageItemsTotal_eq_calculateTotal, calculateTotal_eq_sum]

/-- Witness for C2 at a two-item request in the style of the test suite. -/
theorem c2_saveInvoice_total_witness :
    (∀ item ∈ [(⟨"Consulting", 10, 150, 5⟩ : InvoiceItem), ⟨"Materials", 5, 50, 10⟩],
        validItem item)
      ∧ ((saveInvoice emptyKV "user123" "folder456"
            { seller := ⟨"Seller Corp", "123 Seller St", "billing@seller.com", none⟩
              buyer := ⟨"Buyer Inc", "456 Buyer Ave", "ap@buyer.com", none⟩
              items := [⟨"Consulting", 10, 150, 5⟩, ⟨"Materials", 5, 50, 10⟩]
              currency := "USD"
              issueDate := "2025-01-01"
              dueDate := "2025-01-31"
              taxRate := none
              discountRate := none
              status := none
              notes := none } 1 "ACME Corp" "2025-01-01T00:00:00.000Z").1.total
          = roundHalfAwayFromZero2 (calculateTotal
              [⟨"Consulting", 10, 150, 5⟩, ⟨"Materials", 5, 50, 10⟩])
        ∧ storageItemsTotal [(⟨"Consulting", 10, 150, 5⟩ : InvoiceItem), ⟨"Materials", 5, 50, 10⟩]
          = ([(⟨"Consulting", 10, 150, 5⟩ : InvoiceItem), ⟨"Materials", 5, 50, 10⟩].map
              calculateItemTotal).sum) :=
  ⟨by decide, c2_saveInvoice_total _ _ _ _ _ _ _ (by decide)⟩

/-- C3: the persisted total never incorporates the invoice-level rates —
`saveInvoice` stores the rounded items total, unchanged under any
replacement of `taxRate`/`discountRate` — while the rendered document's
`finalTotal` is the items total adjusted by those rates. -/
theorem c3_stored_vs_rendered (kv : KV) (userId folderId : String)
    (request : CreateInvoiceRequest) (invoiceNumber : Nat)
    (folderCompany now : String) (tr dr : Option ℚ) :
    (saveInvoice kv userId folderId request invoiceNumber folderCompany now).1.total
        = round2 (calculateTotal request.items)
      ∧ (saveInvoice kv userId folderId
            { request with taxRate := tr, discountRate := dr }
            invoiceNumber folderCompany now).1.total
          = (saveInvoice kv userId folderId request invoiceNumber folderCompany now).1.total
      ∧ (pdfTotals request).finalTotal
          = calculateTotal request.items
              + calculateTotal request.items * (jsNullish request.taxRate 0 / 100)
              - calculateTotal request.items * (jsNullish request.discountRate 0 / 100) := by
  refine ⟨?_, rfl, ?_⟩
  · show round2 (storageItemsTotal request.items) = round2 (calculateTotal request.items)
    rw [storageItemsTotal_eq_calculateTotal]
  · show pdfTotalAmount request.items
          + pdfTotalAmount request.items * (jsNullish request.taxRate 0 / 100)
          - pdfTotalAmount request.items * (jsNullish request.discountRate 0 / 100)
        = _
    rfl

/-- C4: for every line item,
`calculateItemTotal item = qty * unit + (qty * unit) * (tax / 100)`
(subtotal plus tax on that subtotal), and this equals
`qty * unit * (1 + tax / 100)`. -/
theorem c4_calculateItemTotal_formula (item : InvoiceItem) :
    calculateItemTotal item
        = item.qty * item.unit + (item.qty * item.unit) * (item.tax / 100)
      ∧ calculateItemTotal item = item.qty * item.unit * (1 + item.tax / 100) := by
  refine ⟨rfl, ?_⟩
  unfold calculateItemTotal
  ring

/-- C5: `calculateTotal items` is the sum of `calculateItemTotal` over all
items, with no rounding at this stage, and the empty list yields `0`. -/
theorem c5_calculateTotal_sum (items : List InvoiceItem) :
    calculateTotal items = (items.map calculateItemTotal).sum
      ∧ calculateTotal ([] : List InvoiceItem) = 0 :=
  ⟨calculateTotal_eq_sum items, rfl⟩

/-- C6: the invoice-level aggregator computes
`taxAmount = subtotal * (taxRate / 100)`,
`discountAmount = subtotal * (discountRate / 100)`,
`finalTotal = subtotal + taxAmount - discountAmount`; at
`subtotal = 1000, taxRate = 20, discountRate = 15` this is `(200, 150, 1050)`,
and zero rates leave `finalTotal = subtotal` exactly. -/
theorem c6_invoiceTotals (subtotal taxRate discountRate : ℚ)
    (htr0 : 0 ≤ taxRate) (htr1 : taxRate ≤ 100)
    (hdr0 : 0 ≤ discountRate) (hdr1 : discountRate ≤ 100) :
    invoiceTotals subtotal taxRate discountRate
        = (subtotal * (taxRate / 100), subtotal * (discountRate / 100),
            subtotal + subtotal * (taxRate / 100) - subtotal * (discountRate / 100))
      ∧ invoiceTotals 1000 20 15 = (200, 150, 1050)
      ∧ (taxRate = 0 → discountRate = 0 →
          (invoiceTotals subtotal taxRate discountRate).2.2 = subtotal) := by
  refine ⟨rfl, ?_, ?_⟩
  · unfold invoiceTotals
    norm_num
  · intro h1 h2
    subst h1
    subst h2
    show subtotal + subtotal * (0 / 100) - subtotal * (0 / 100) = subtotal
    ring

/-- Witness for C6 at `subtotal = 1000, taxRate = 20, discountRate = 15`. -/
theorem c6_invoiceTotals_witness :
    (0 : ℚ) ≤ 20 ∧ (20 : ℚ) ≤ 100 ∧ (0 : ℚ) ≤ 15 ∧ (15 : ℚ) ≤ 100
      ∧ invoiceTotals 1000 20 15 = (200, 150, 1050) :=
  ⟨by decide, by decide, by decide, by decide,
    (c6_invoiceTotals 1000 20 15 (by decide) (by decide) (by decide) (by decide)).2.1⟩

/-- C7: for every stored invoice record and every sequence of status updates
(e.g. `due` → `paid` → `due`), only the `status` field of the record changes:
the lookup after the updates returns the original record with just `status`
replaced by the last update (so `total`, `buyer`, `seller`, `currency`,
`issueDate`, `dueDate` and the original request are untouched), and if the
stored total was the rounded recomputation of the totaling algorithm over
the originally submitted items, it still is afterwards. -/
theorem c7_updateStatus_frame (kv : KV) (iid : String) (d : InvoiceStorageData)
    (statuses : List String) (h : getInvoiceData kv iid = some d) :
    getInvoiceData (applyStatusUpdates kv iid statuses) iid
        = some { d with metadata := { d.metadata with
            status := statuses.foldl (fun _ s => s) d.metadata.status } }
      ∧ (d.metadata.total = round2 (storageItemsTotal d.request.items) →
          ∀ d', getInvoiceData (applyStatusUpdates kv iid statuses) iid = some d' →
            d'.metadata.total = round2 (storageItemsTotal d'.request.items)
              ∧ d'.metadata.buyer = d.metadata.buyer
              ∧ d'.metadata.seller = d.metadata.seller
              ∧ d'.metadata.currency = d.metadata.currency
              ∧ d'.metadata.issueDate = d.metadata.issueDate
              ∧ d'.metadata.dueDate = d.metadata.dueDate
              ∧ d'.metadata.total = d.metadata.total
              ∧ d'.request = d.request) := by
  have hmain := applyStatusUpdates_found statuses kv iid d h
  refine ⟨hmain, ?_⟩
  intro htot d' hd'
  rw [hmain] at hd'
  injection hd' with hd'
  subst hd'
  exact ⟨htot, rfl, rfl, rfl, rfl, rfl, rfl, rfl⟩

/-- Witness for C7: a `paid` → `due` round trip on the sample record
returns the original record with only `status` refreshed. -/
theorem c7_updateStatus_frame_witness :
    getInvoiceData sampleKV "ID1" = some sampleData
      ∧ getInvoiceData (applyStatusUpdates sampleKV "ID1" ["paid", "due"]) "ID1"
        = some { sampleData with metadata := { sampleData.metadata with
            status := ["paid", "due"].foldl (fun _ s => s) sampleData.metadata.status } } :=
  ⟨by decide, (c7_updateStatus_frame sampleKV "ID1" sampleData ["paid", "due"] (by decide)).1⟩

/-- C8: `calculateTotal` is invariant under permutation of the item list. -/
theorem c8_calculateTotal_perm (l₁ l₂ : List InvoiceItem) (h : l₁.Perm l₂) :
    calculateTotal l₁ = calculateTotal l₂ := by
  rw [calculateTotal_eq_sum, calculateTotal_eq_sum]
  exact (h.map calculateItemTotal).sum_eq

/-- Witness for C8 at a concrete two-item swap. -/
theorem c8_calculateTotal_perm_witness :
    ([⟨"a", 2, 5, 10⟩, ⟨"b", 1, 7, 0⟩] : List InvoiceItem).Perm
        [⟨"b", 1, 7, 0⟩, ⟨"a", 2, 5, 10⟩]
      ∧ calculateTotal [⟨"a", 2, 5, 10⟩, ⟨"b", 1, 7, 0⟩]
        = calculateTotal [⟨"b", 1, 7, 0⟩, ⟨"a", 2, 5, 10⟩] :=
  ⟨by decide, c8_calculateTotal_perm _ _ (by decide)⟩

/-- C9: updating the status of an invoice id under which no record is stored
returns `null` and leaves the store byte-identical (no writes at all). -/
theorem c9_update_missing (kv : KV) (iid st : String)
    (h : getInvoiceData kv iid = none) :
    updateInvoiceStatus kv iid st = (none, kv) := by
  unfold updateInvoiceStatus
  rw [h]

/-- Witness for C9 on the empty store. -/
theorem c9_update_missing_witness :
    getInvoiceData emptyKV "NON-EXISTENT-ID" = none
      ∧ updateInvoiceStatus emptyKV "NON-EXISTENT-ID" "paid" = (none, emptyKV) :=
  ⟨rfl, c9_update_missing emptyKV "NON-EXISTENT-ID" "paid" rfl⟩

/-- C10: the two persisted copies of an invoice's metadata agree.  After
`saveInvoice`, the object under `invoice:meta:{id}` equals the `metadata`
field of the record under `invoice:{id}` (both equal the returned metadata);
and after a successful `updateInvoiceStatus`, both copies carry the same
updated metadata. -/
theorem c10_meta_copies_agree (kv : KV) (uid fid : String)
    (req : CreateInvoiceRequest) (n : Nat) (comp now iid st : String)
    (d : InvoiceStorageData) :
    (getInvoiceMetadata (saveInvoice kv uid fid req n comp now).2
          (generateInvoiceId uid comp n)
        = some (saveInvoice kv uid fid req n comp now).1
      ∧ getInvoiceData (saveInvoice kv uid fid req n comp now).2
          (generateInvoiceId uid comp n)
        = some { metadata := (saveInvoice kv uid fid req n comp now).1
                 request := req })
    ∧ (getInvoiceData kv iid = some d →
        getInvoiceMetadata (updateInvoiceStatus kv iid st).2 iid
            = some { d.metadata with status := st }
          ∧ getInvoiceData (updateInvoiceStatus kv iid st).2 iid
            = some { d with metadata := { d.metadata with status := st } }) := by
  refine ⟨⟨getInvoiceMetadata_after_save kv uid fid req n comp now,
    getInvoiceData_after_save kv uid fid req n comp now⟩, ?_⟩
  intro h
  exact ⟨getInvoiceMetadata_after_update kv iid st d h,
    getInvoiceData_after_update kv iid st d h⟩

/-- Witness for C10: after updating the sample record to `paid`, both
persisted copies carry the same updated metadata. -/
theorem c10_meta_copies_agree_witness :
    getInvoiceData sampleKV "ID1" = some sampleData
      ∧ (getInvoiceMetadata (updateInvoiceStatus sampleKV "ID1" "paid").2 "ID1"
          = some { sampleData.metadata with status := "paid" }
        ∧ getInvoiceData (updateInvoiceStatus sampleKV "ID1" "paid").2 "ID1"
          = some { sampleData with metadata := { sampleData.metadata with status := "paid" } }) :=
  ⟨by decide,
    (c10_meta_copies_agree sampleKV "u" "f" sampleRequest 1 "ACME" "t" "ID1" "paid"
      sampleData).2 (by decide)⟩

end Invoice
